import Mathlib

/-!
# Verification of the BACnet router core (apps/fuzz-afl/main.c)

A shallow embedding of the routing-table management, network-control
message handlers and routed-APDU forwarder of the BACnet router fuzz
harness, together with proofs and refutations of the specification
claims about it.

The routing table is the linked list `Router_Table_Head` of `DNET`
nodes: the top-level list holds the directly connected ports, and each
port's `dnets` field holds the remote networks reachable through it.
We model both node roles with explicit structures, linked lists as
`List`, machine integers as `Nat` (with `% 256` / `% 65536` where the C
performs 8/16-bit arithmetic), and each `datalink_send_pdu` call as an
`Emission` record.
-/

namespace BacnetRouter

/-- Constant `MAX_MAC_LEN` from bacdef.h (not under src/).
Modelled from the spec: "a MAC of 0-K octets ... K=7 is sufficient". -/
def MAX_MAC_LEN : Nat := 7

/-- The global broadcast network sentinel 0xFFFF.
Modelled from the spec: "0xFFFF is the broadcast sentinel". -/
def BACNET_BROADCAST_NETWORK : Nat := 65535

/-- Modelled from the spec: "a 1-octet protocol version that must equal 1". -/
def BACNET_PROTOCOL_VERSION : Nat := 1

/-- Network-layer message type tags, modelled from the spec:
"Dispatch is on the message-type octet. Cases (numeric tags per
ASHRAE 135)" - the ASHRAE 135 clause 6.6 tags are 0x00..0x09 in the
order the spec lists them (bacenum.h is not under src/). -/
def NETWORK_MESSAGE_WHO_IS_ROUTER_TO_NETWORK : Nat := 0

def NETWORK_MESSAGE_I_AM_ROUTER_TO_NETWORK : Nat := 1

def NETWORK_MESSAGE_I_COULD_BE_ROUTER_TO_NETWORK : Nat := 2

def NETWORK_MESSAGE_REJECT_MESSAGE_TO_NETWORK : Nat := 3

def NETWORK_MESSAGE_ROUTER_BUSY_TO_NETWORK : Nat := 4

def NETWORK_MESSAGE_ROUTER_AVAILABLE_TO_NETWORK : Nat := 5

def NETWORK_MESSAGE_INIT_RT_TABLE : Nat := 6

def NETWORK_MESSAGE_INIT_RT_TABLE_ACK : Nat := 7

def NETWORK_MESSAGE_ESTABLISH_CONNECTION_TO_NETWORK : Nat := 8

def NETWORK_MESSAGE_DISCONNECT_CONNECTION_TO_NETWORK : Nat := 9

/-- Reject reason 3, modelled from the spec: "3 Unknown message type". -/
def NETWORK_REJECT_UNKNOWN_MESSAGE_TYPE : Nat := 3

/-- Structure `BACNET_ADDRESS` (bacdef.h, not under src/). Modelled from the spec:
"An address is a triple (net, mac, adr): a 16-bit network number ...;
a MAC of 0-K octets identifying a node on a directly connected network;
an optional routed-address field of the same form". `mac`/`mac_len` is
the datalink MAC, `net`/`len`/`adr` the routed triple. -/
structure BACNET_ADDRESS where
  mac_len : Nat
  mac : List Nat
  net : Nat
  len : Nat
  adr : List Nat
deriving DecidableEq, Repr

/-- Copy a MAC field the way the C copies `MAX_MAC_LEN` octets out of a
fixed-size array: exactly seven octets, missing ones being the zeroes
`calloc`/`= { 0 }` put there. -/
def macCopy (xs : List Nat) : List Nat :=
  (xs ++ List.replicate MAX_MAC_LEN 0).take MAX_MAC_LEN

/-- The all-zero `BACNET_ADDRESS` (`= { 0 }` in C). -/
def zeroAddress : BACNET_ADDRESS :=
  { mac_len := 0, mac := List.replicate MAX_MAC_LEN 0, net := 0, len := 0,
    adr := List.replicate MAX_MAC_LEN 0 }

/-- A remote-network node of the router table: the `DNET` struct of
main.c in its "entry of a port's `dnets` list" role (its own `dnets`
field is never used there). -/
structure DNET where
  mac : List Nat
  mac_len : Nat
  net : Nat
  enabled : Bool
deriving DecidableEq, Repr

/-- A port node of the router table: the `DNET` struct of main.c in its
"element of the `Router_Table_Head` list" role; `dnets` is the list of
remote networks reachable through this port. -/
structure RouterPort where
  mac : List Nat
  mac_len : Nat
  net : Nat
  enabled : Bool
  dnets : List DNET
deriving DecidableEq, Repr

/-- The inner search loop of `dnet_find` over one port's `dnets` list. -/
def dnets_find : List DNET → Nat → Option DNET
  | [], _ => none
  | d :: rest, net => if d.net = net then some d else dnets_find rest net

/-- Function `dnet_find` of main.c. Walks the ports; a port whose own `net`
matches is returned directly (second component `none`: the caller's
`addr` is not filled); otherwise the port's remote list is searched and
on a hit the owning port is returned together with the matched remote
entry (whose MAC the C copies into `addr` when `addr` is not NULL). -/
def dnet_find : List RouterPort → Nat → Option (RouterPort × Option DNET)
  | [], _ => none
  | p :: rest, net =>
    if p.net = net then some (p, none)
    else
      match dnets_find p.dnets net with
      | some d => some (p, some d)
      | none => dnet_find rest net

/-- Function `port_find` of main.c: search the ports (only) for `snet`; the hit
has its `mac`/`mac_len` copied into the caller's address. -/
def port_find : List RouterPort → Nat → Option RouterPort
  | [], _ => none
  | p :: rest, snet => if p.net = snet then some p else port_find rest snet

/-- Function `port_add` of main.c: if `snet` is found anywhere by `dnet_find`
(port networks and remote networks alike) do nothing, otherwise append
a new port node at the tail of the list. -/
def port_add (tbl : List RouterPort) (snet : Nat) (addr : Option BACNET_ADDRESS) :
    List RouterPort :=
  match dnet_find tbl snet with
  | some _ => tbl
  | none =>
    tbl ++
      [{ net := snet,
         mac := match addr with
                | some a => macCopy a.mac
                | none => List.replicate MAX_MAC_LEN 0,
         mac_len := match addr with
                    | some a => a.mac_len
                    | none => 0,
         enabled := true, dnets := [] }]

/-- The remote-network node `dnet_add` allocates: `net`, `enabled`, and
the MAC copied from `addr->mac`/`addr->mac_len` when `addr` is not NULL
(`calloc` zeroes otherwise). -/
def mkDNET (net : Nat) (addr : Option BACNET_ADDRESS) : DNET :=
  { net := net,
    mac := match addr with
           | some a => macCopy a.mac
           | none => List.replicate MAX_MAC_LEN 0,
    mac_len := match addr with
               | some a => a.mac_len
               | none => 0,
    enabled := true }

/-- The append performed by `dnet_add` on the owning port's `dnets`
list: walk to the tail, bailing out if `net` is already present there
("make sure NETs are not repeated"), then link a fresh node. -/
def dnets_append (dnets : List DNET) (net : Nat) (addr : Option BACNET_ADDRESS) :
    List DNET :=
  match dnets_find dnets net with
  | some _ => dnets
  | none => dnets ++ [mkDNET net addr]

/-- The port-locating step of `dnet_add`: `dnet_find(snet, NULL)` finds
the first port whose own network is `snet` or whose remote list holds
`snet`, and the new remote is appended to that port's `dnets`. If no
port matches the table is unchanged (`if (!port) return;`). -/
def dnet_add_here : List RouterPort → Nat → Nat → Option BACNET_ADDRESS → List RouterPort
  | [], _, _, _ => []
  | p :: rest, snet, net, addr =>
    if p.net = snet ∨ (dnets_find p.dnets snet).isSome then
      { p with dnets := dnets_append p.dnets net addr } :: rest
    else p :: dnet_add_here rest snet net addr

/-- Function `dnet_add` of main.c: no-op when `net` is already anywhere in the
table ("make sure NETs are not repeated"), otherwise append a remote
node for `net` to the port located via `dnet_find(snet, NULL)`. -/
def dnet_add (tbl : List RouterPort) (snet net : Nat) (addr : Option BACNET_ADDRESS) :
    List RouterPort :=
  match dnet_find tbl net with
  | some _ => tbl
  | none => dnet_add_here tbl snet net addr

/-- The networks a single port contributes to the table: its own
network number followed by its remote networks, in insertion order. -/
def portNets (p : RouterPort) : List Nat :=
  p.net :: p.dnets.map DNET.net

/-- All network numbers stored in the table, in insertion order. -/
def allNets : List RouterPort → List Nat
  | [] => []
  | p :: rest => portNets p ++ allNets rest

/-- One `port_add`/`dnet_add` request against the routing table. -/
inductive TableOp where
  | addPort (snet : Nat) (addr : Option BACNET_ADDRESS)
  | addRemote (snet net : Nat) (addr : Option BACNET_ADDRESS)

/-- Apply one table operation. -/
def applyOp (tbl : List RouterPort) : TableOp → List RouterPort
  | .addPort snet addr => port_add tbl snet addr
  | .addRemote snet net addr => dnet_add tbl snet net addr

/-- Run a sequence of table operations starting from the empty table. -/
def runOps (ops : List TableOp) : List RouterPort := ops.foldl applyOp []

/-! ## NPDU values, emissions and the message senders -/

/-- Modelled from the spec: "read_u16 ... big-endian" - `encode_unsigned16`
of bacint.c is repository code not under src/. Writes the low 16 bits of
`value` as two octets, most significant first. -/
def encode_unsigned16 (value : Nat) : List Nat :=
  [value / 256 % 256, value % 256]

/-- Modelled from the spec: "read_u16 ... big-endian" - `decode_unsigned16`
of bacint.c is repository code not under src/. Reads two octets, most
significant first. -/
def decode_unsigned16 (b0 b1 : Nat) : Nat :=
  b0 % 256 * 256 + b1 % 256

/-- Structure `BACNET_NPDU_DATA` (npdu.h, not under src/). Modelled from the spec:
"Each received frame is decoded into a value object holding: protocol
version, network-layer-message flag, ..., hop count (0-255),
data-expecting-reply flag, priority (0-3), and - if a network-layer
message - a one-octet message-type tag." -/
structure BACNET_NPDU_DATA where
  protocol_version : Nat
  data_expecting_reply : Bool
  network_layer_message : Bool
  network_message_type : Nat
  priority : Nat
  hop_count : Nat
deriving DecidableEq, Repr

/-- Modelled from the spec: `npdu_encode_npdu_network` (npdu.c, not under
src/) fills the transient NPDU value for an originated network-layer
message: protocol version 1, the network-layer-message flag, the given
message type and normal priority; the library initializes the hop count
of an originated message to 255 (the exact value is irrelevant to every
claim below). -/
def npdu_encode_npdu_network (message_type : Nat) : BACNET_NPDU_DATA :=
  { protocol_version := BACNET_PROTOCOL_VERSION, data_expecting_reply := false,
    network_layer_message := true, network_message_type := message_type,
    priority := 0, hop_count := 255 }

/-- Function `datalink_get_broadcast_address` of main.c: `mac_len = 0`,
`net = BACNET_BROADCAST_NETWORK`, `len = 0` (the mac/adr octets are not
written by it; they are modelled as zero). -/
def datalink_get_broadcast_address : BACNET_ADDRESS :=
  { mac_len := 0, mac := List.replicate MAX_MAC_LEN 0,
    net := BACNET_BROADCAST_NETWORK, len := 0,
    adr := List.replicate MAX_MAC_LEN 0 }

/-- One `datalink_send_pdu` call of main.c: the port-selector `snet`
argument, the destination address, the NPCI value object, the routed
source encoded into the NPCI (when one is), and the octets the sender
appended after the NPCI in `Tx_Buffer`. -/
structure Emission where
  snet : Nat
  dest : BACNET_ADDRESS
  src : Option BACNET_ADDRESS
  npdu : BACNET_NPDU_DATA
  body : List Nat
deriving DecidableEq, Repr

/-- The inner loop of `send_i_am_router_to_network`: one port's remote
networks, each as a 2-octet big-endian value. -/
def dnets_nets_payload : List DNET → List Nat
  | [] => []
  | d :: rest => encode_unsigned16 d.net ++ dnets_nets_payload rest

/-- The enumeration loop of `send_i_am_router_to_network` when
`net == 0`: every port other than `snet` contributes its own network
number followed by its remote networks. -/
def i_am_router_nets_payload : List RouterPort → Nat → List Nat
  | [], _ => []
  | p :: rest, snet =>
    if p.net ≠ snet then
      encode_unsigned16 p.net ++ dnets_nets_payload p.dnets ++
        i_am_router_nets_payload rest snet
    else i_am_router_nets_payload rest snet

/-- Function `send_i_am_router_to_network` of main.c: one broadcast emission on
`snet`; the body is the single 2-octet network when `net` is nonzero,
and the reachable-network enumeration otherwise. -/
def send_i_am_router_to_network (tbl : List RouterPort) (snet net : Nat) : Emission :=
  { snet := snet, dest := datalink_get_broadcast_address, src := none,
    npdu := npdu_encode_npdu_network NETWORK_MESSAGE_I_AM_ROUTER_TO_NETWORK,
    body := if net ≠ 0 then encode_unsigned16 net
            else i_am_router_nets_payload tbl snet }

/-- The port-encoding loop of `send_initialize_routing_table_ack`: per
port (2-octet NET, 1-octet synthetic port id starting at 1, 1-octet
info length 0); the port id counter is a `uint8_t`. -/
def init_rt_ack_ports : List RouterPort → Nat → List Nat
  | [], _ => []
  | p :: rest, port_id =>
    encode_unsigned16 p.net ++ [port_id % 256, 0] ++ init_rt_ack_ports rest (port_id + 1)

/-- The body of `send_initialize_routing_table_ack`: a 1-octet port
count (`uint8_t` counter) followed, when it is positive, by the encoded
ports. -/
def init_rt_ack_body (tbl : List RouterPort) : List Nat :=
  tbl.length % 256 ::
    (if tbl.length % 256 > 0 then init_rt_ack_ports tbl 1 else [])

/-- Function `send_initialize_routing_table_ack` of main.c. Its `snet` parameter
is declared `uint8_t` in the C, hence the `% 256`. A NULL `dst` means
the local broadcast address. -/
def send_initialize_routing_table_ack (tbl : List RouterPort) (snet : Nat)
    (dst : Option BACNET_ADDRESS) : Emission :=
  { snet := snet % 256,
    dest := match dst with
            | some d => d
            | none => datalink_get_broadcast_address,
    src := none,
    npdu := npdu_encode_npdu_network NETWORK_MESSAGE_INIT_RT_TABLE_ACK,
    body := init_rt_ack_body tbl }

/-- Function `send_reject_message_to_network` of main.c: a 1-octet reason
followed by the 2-octet DNET when nonzero. -/
def send_reject_message_to_network (snet : Nat) (dst : Option BACNET_ADDRESS)
    (reject_reason dnet : Nat) : Emission :=
  { snet := snet,
    dest := match dst with
            | some d => d
            | none => datalink_get_broadcast_address,
    src := none,
    npdu := npdu_encode_npdu_network NETWORK_MESSAGE_REJECT_MESSAGE_TO_NETWORK,
    body := reject_reason % 256 ::
      (if dnet ≠ 0 then encode_unsigned16 dnet else []) }

/-- Function `send_who_is_router_to_network` of main.c: broadcast on `snet`; the
2-octet `dnet` is appended only when nonzero. -/
def send_who_is_router_to_network (snet dnet : Nat) : Emission :=
  { snet := snet, dest := datalink_get_broadcast_address, src := none,
    npdu := npdu_encode_npdu_network NETWORK_MESSAGE_WHO_IS_ROUTER_TO_NETWORK,
    body := if dnet ≠ 0 then encode_unsigned16 dnet else [] }

/-- The "send out every port other than `snet`" loop pattern of main.c
(`while (port) { if (port->net != snet) ...; port = port->next; }`). -/
def send_to_other_ports : List RouterPort → Nat → (Nat → Emission) → List Emission
  | [], _, _ => []
  | p :: rest, snet, mk =>
    if p.net ≠ snet then mk p.net :: send_to_other_ports rest snet mk
    else send_to_other_ports rest snet mk

/-! ## Network-layer control message handlers -/

/-- Function `who_is_router_to_network_handler` of main.c. With a 2-octet
payload: look the network up; reachable through another port - answer
I-Am-Router-To-Network on the receiving port; reachable through the
receiving port - silence; unknown - re-issue Who-Is-Router-To-Network
out every other port. With a shorter payload: I-Am-Router-To-Network(0).
The routing table is not modified. -/
def who_is_router_to_network_handler (tbl : List RouterPort) (snet : Nat)
    (npdu : List Nat) : List Emission :=
  match npdu with
  | b0 :: b1 :: _ =>
    let network := decode_unsigned16 b0 b1
    match dnet_find tbl network with
    | some (port, _) =>
      if port.net ≠ snet then [send_i_am_router_to_network tbl snet network]
      else []
    | none =>
      send_to_other_ports tbl snet
        (fun pnet => send_who_is_router_to_network pnet network)
  | _ => [send_i_am_router_to_network tbl snet 0]

/-- The I-Am-Router-To-Network loop of `network_control_handler`: while
at least two octets remain, decode one 2-octet network and
`dnet_add(snet, net, src)`. -/
def i_am_router_networks_loop (snet : Nat) (src : BACNET_ADDRESS) :
    List Nat → List RouterPort → List RouterPort
  | b0 :: b1 :: rest, tbl =>
    i_am_router_networks_loop snet src rest
      (dnet_add tbl snet (decode_unsigned16 b0 b1) (some src))
  | _, tbl => tbl

/-- The Initialize-Routing-Table entry loop of `network_control_handler`.
The C re-initializes its cursor `int i = 1` inside the loop body, so
every one of the `net_count` iterations decodes the DNET at offset 1
(the end-of-iteration cursor computation is dead); octets read past the
supplied payload are modelled as 0. -/
def init_rt_table_loop (snet : Nat) (src : BACNET_ADDRESS) (npdu : List Nat) :
    Nat → List RouterPort → List RouterPort
  | 0, tbl => tbl
  | n + 1, tbl =>
    init_rt_table_loop snet src npdu n
      (dnet_add tbl snet (decode_unsigned16 (npdu.getD 1 0) (npdu.getD 2 0)) (some src))

/-- Function `network_control_handler` of main.c: dispatch on the message-type
octet. Returns the updated routing table and the emissions, in order. -/
def network_control_handler (tbl : List RouterPort) (snet : Nat)
    (src : BACNET_ADDRESS) (npdu_data : BACNET_NPDU_DATA) (npdu : List Nat) :
    List RouterPort × List Emission :=
  if npdu_data.network_message_type = NETWORK_MESSAGE_WHO_IS_ROUTER_TO_NETWORK then
    (tbl, who_is_router_to_network_handler tbl snet npdu)
  else if npdu_data.network_message_type = NETWORK_MESSAGE_I_AM_ROUTER_TO_NETWORK then
    (i_am_router_networks_loop snet src npdu tbl, [])
  else if npdu_data.network_message_type = NETWORK_MESSAGE_I_COULD_BE_ROUTER_TO_NETWORK then
    (tbl, [])
  else if npdu_data.network_message_type = NETWORK_MESSAGE_REJECT_MESSAGE_TO_NETWORK then
    (tbl, [])
  else if npdu_data.network_message_type = NETWORK_MESSAGE_ROUTER_BUSY_TO_NETWORK ∨
      npdu_data.network_message_type = NETWORK_MESSAGE_ROUTER_AVAILABLE_TO_NETWORK then
    (tbl, [])
  else if npdu_data.network_message_type = NETWORK_MESSAGE_INIT_RT_TABLE then
    match npdu with
    | [] => (tbl, [])
    | b0 :: _ =>
      if b0 = 0 then (tbl, [send_initialize_routing_table_ack tbl snet none])
      else
        let tbl1 := init_rt_table_loop snet src npdu b0 tbl
        (tbl1, [send_initialize_routing_table_ack tbl1 snet none])
  else if npdu_data.network_message_type = NETWORK_MESSAGE_INIT_RT_TABLE_ACK then
    (tbl, [])
  else if npdu_data.network_message_type = NETWORK_MESSAGE_ESTABLISH_CONNECTION_TO_NETWORK ∨
      npdu_data.network_message_type = NETWORK_MESSAGE_DISCONNECT_CONNECTION_TO_NETWORK then
    (tbl, [])
  else
    (tbl, [send_reject_message_to_network snet (some src)
      NETWORK_REJECT_UNKNOWN_MESSAGE_TYPE 0])

/-! ## Routed-APDU forwarder -/

/-- Function `routed_src_address` of main.c: build the outbound routed
source. The receiving port's MAC is copied first (`port_find`); a
nonzero received source network means the frame was already routed, so
the route is learned (`dnet_add`) and the received triple preserved;
otherwise the triple is built from the receiving port's network and the
sender's datalink MAC. When `port_find` fails the C leaves `router_src`
unwritten; that case is modelled as `none`. -/
def routed_src_address (tbl : List RouterPort) (snet : Nat) (src : BACNET_ADDRESS) :
    Option BACNET_ADDRESS × List RouterPort :=
  match port_find tbl snet with
  | none => (none, tbl)
  | some p =>
    if src.net ≠ 0 then
      (some { mac_len := p.mac_len, mac := macCopy p.mac, net := src.net,
              len := src.len, adr := macCopy src.adr },
       dnet_add tbl snet src.net (some src))
    else
      (some { mac_len := p.mac_len, mac := macCopy p.mac, net := snet,
              len := src.mac_len, adr := macCopy src.mac }, tbl)

/-- Function `routed_apdu_handler` of main.c: the four forwarding paths.
Global broadcast: decrement the hop count (8-bit) and send out every
other port - the C performs no hop-count check here. Known DNET: direct
delivery (destination stripped to the local MAC) when the matched
port's own network is the DNET, otherwise forward to the stored
next-hop MAC. Unknown nonzero DNET: broadcast out every other port and
issue a Who-Is-Router-To-Network on both ports (`datalink_send_pdu`
with snet 0). DNET 0: nothing. -/
def routed_apdu_handler (tbl : List RouterPort) (snet : Nat)
    (npdu : BACNET_NPDU_DATA) (src dest : BACNET_ADDRESS) (apdu : List Nat) :
    List RouterPort × List Emission :=
  if dest.net = BACNET_BROADCAST_NETWORK then
    let local_dest := datalink_get_broadcast_address
    let npdu1 := { npdu with hop_count := (npdu.hop_count + 255) % 256 }
    let rs := routed_src_address tbl snet src
    (rs.2, send_to_other_ports rs.2 snet (fun pnet =>
      { snet := pnet, dest := local_dest, src := rs.1, npdu := npdu1,
        body := apdu }))
  else
    match dnet_find tbl dest.net with
    | some (port, rem) =>
      if port.net = dest.net then
        let local_dest : BACNET_ADDRESS :=
          { mac := macCopy dest.adr, mac_len := dest.len, net := 0, len := 0,
            adr := List.replicate MAX_MAC_LEN 0 }
        let npdu1 := { npdu with hop_count := (npdu.hop_count + 255) % 256 }
        let rs := routed_src_address tbl snet src
        (rs.2, [{ snet := port.net, dest := local_dest, src := rs.1,
                  npdu := npdu1, body := apdu }])
      else
        let remote_dest :=
          match rem with
          | some d => { dest with mac_len := d.mac_len, mac := macCopy d.mac }
          | none => dest
        let npdu1 := { npdu with hop_count := (npdu.hop_count + 255) % 256 }
        let rs := routed_src_address tbl snet src
        (rs.2, [{ snet := port.net, dest := remote_dest, src := rs.1,
                  npdu := npdu1, body := apdu }])
    | none =>
      if dest.net ≠ 0 then
        let dest1 := { dest with mac_len := 0 }
        let npdu1 := { npdu with hop_count := (npdu.hop_count + 255) % 256 }
        let rs := routed_src_address tbl snet src
        (rs.2,
          send_to_other_ports rs.2 snet (fun pnet =>
            { snet := pnet, dest := dest1, src := rs.1, npdu := npdu1,
              body := apdu }) ++
          [send_who_is_router_to_network 0 dest.net])
      else (tbl, [])

/-! ## NPDU decoding and the top-level dispatch -/

/-- Read one (NET, LEN, ADR[LEN]) address triple at offset `i`.
Modelled from the spec: "When destination is present: 2-octet DNET,
1-octet DLEN, DLEN octets of DADR ... All length fields must stay
within the supplied buffer; any short read yields Truncated." -/
def read_address_triple (pdu : List Nat) (i : Nat) :
    Option (Nat × Nat × List Nat × Nat) :=
  match pdu.get? i, pdu.get? (i + 1), pdu.get? (i + 2) with
  | some hi, some lo, some alen =>
    if i + 3 + alen ≤ pdu.length then
      some (decode_unsigned16 hi lo, alen, (pdu.drop (i + 3)).take alen,
        i + 3 + alen)
    else none
  | _, _, _ => none

/-- Modelled from the spec: `bacnet_npdu_decode` (npdu.c, repository
code not under src/), per spec sections 4.A and 6: octet 0 protocol
version (must equal 1), octet 1 control (bit7 network-layer message,
bit5 destination present, bit3 source present, bit2
data-expecting-reply, bits 1-0 priority); then the destination triple,
the source triple, the 1-octet hop count (when a destination is
present) and the 1-octet message type (when a network-layer message).
Returns the decoded destination, source (the datalink `mac`/`mac_len`
of the passed-in source is preserved), the NPDU value and the offset of
the first octet past the NPCI; `none` on a truncated or
unsupported-version frame. -/
def bacnet_npdu_decode (pdu : List Nat) (srcIn : BACNET_ADDRESS) :
    Option (BACNET_ADDRESS × BACNET_ADDRESS × BACNET_NPDU_DATA × Nat) :=
  match pdu.get? 0, pdu.get? 1 with
  | some ver, some ctrl =>
    if ver = BACNET_PROTOCOL_VERSION then
      let destStep : Option (BACNET_ADDRESS × Nat) :=
        if ctrl / 32 % 2 = 1 then
          match read_address_triple pdu 2 with
          | some (net, alen, adr, i) =>
            some ({ mac_len := 0, mac := List.replicate MAX_MAC_LEN 0,
                    net := net, len := alen, adr := adr }, i)
          | none => none
        else some (zeroAddress, 2)
      match destStep with
      | none => none
      | some (dest, i1) =>
        let srcStep : Option (BACNET_ADDRESS × Nat) :=
          if ctrl / 8 % 2 = 1 then
            match read_address_triple pdu i1 with
            | some (net, alen, adr, i) =>
              some ({ srcIn with net := net, len := alen, adr := adr }, i)
            | none => none
          else
            some ({ srcIn with net := 0, len := 0, adr := List.replicate MAX_MAC_LEN 0 }, i1)
        match srcStep with
        | none => none
        | some (src, i2) =>
          let hopStep : Option (Nat × Nat) :=
            if ctrl / 32 % 2 = 1 then
              match pdu.get? i2 with
              | some h => some (h, i2 + 1)
              | none => none
            else some (0, i2)
          match hopStep with
          | none => none
          | some (hop, i3) =>
            let msgStep : Option (Nat × Nat) :=
              if ctrl / 128 % 2 = 1 then
                match pdu.get? i3 with
                | some m => some (m, i3 + 1)
                | none => none
              else some (0, i3)
            match msgStep with
            | none => none
            | some (mt, i4) =>
              some (dest, src,
                { protocol_version := ver,
                  data_expecting_reply := ctrl / 4 % 2 == 1,
                  network_layer_message := ctrl / 128 % 2 == 1,
                  network_message_type := mt, priority := ctrl % 4,
                  hop_count := hop }, i4)
    else none
  | _, _ => none

/-- Constant `PDU_TYPE_CONFIRMED_SERVICE_REQUEST` (apdu.h, not under
src/). Modelled from the spec: "APDU first-octet high nibble is not a
confirmed-service-request (tag 0x0)". -/
def PDU_TYPE_CONFIRMED_SERVICE_REQUEST : Nat := 0

/-- Function `my_routing_npdu_handler` of main.c: decode the NPCI and
dispatch. Network-layer messages go to `network_control_handler` only
when the destination network is absent (0) or the global broadcast;
otherwise they are silently dropped. APDU frames go to
`routed_apdu_handler` unless the hop count is exhausted (`<= 1` with a
remote DNET) or they are a confirmed-service broadcast; frames with a
local or broadcast destination are additionally delivered to the
`apdu_handler` collaborator. A successful decode guarantees
`0 < apdu_offset <= pdu_len`, so that C guard is not re-modelled.
Returns (table, emissions, APDU deliveries). -/
def my_routing_npdu_handler (tbl : List RouterPort) (snet : Nat)
    (src : BACNET_ADDRESS) (pdu : List Nat) :
    List RouterPort × List Emission × List (BACNET_ADDRESS × List Nat) :=
  match pdu with
  | [] => (tbl, [], [])
  | v :: _ =>
    if v = BACNET_PROTOCOL_VERSION then
      match bacnet_npdu_decode pdu src with
      | none => (tbl, [], [])
      | some (dest, src2, npdu_data, apdu_offset) =>
        if npdu_data.network_layer_message then
          if dest.net = 0 ∨ dest.net = BACNET_BROADCAST_NETWORK then
            let r := network_control_handler tbl snet src2 npdu_data
              (pdu.drop apdu_offset)
            (r.1, r.2, [])
          else (tbl, [], [])
        else if dest.net = 0 ∨ dest.net = BACNET_BROADCAST_NETWORK ∨
            npdu_data.hop_count > 1 then
          if dest.net = BACNET_BROADCAST_NETWORK ∧
              (pdu.getD apdu_offset 0) % 256 / 16 * 16 =
                PDU_TYPE_CONFIRMED_SERVICE_REQUEST then
            (tbl, [], [])
          else
            let r := routed_apdu_handler tbl snet npdu_data src2 dest
              (pdu.drop apdu_offset)
            let deliveries :=
              if dest.net = 0 ∨ dest.net = BACNET_BROADCAST_NETWORK then
                [(src2, pdu.drop apdu_offset)]
              else []
            (r.1, r.2, deliveries)
        else (tbl, [], [])
    else (tbl, [], [])

/-! ## Concrete values used by witnesses and counterexamples -/

/-- A two-port table (networks 1 and 2), as `datalink_init` builds at
startup with the default network numbers. -/
def exampleTable : List RouterPort := port_add (port_add [] 1 none) 2 none

/-- A received source carrying both a datalink MAC (aa bb) and a routed
source triple (SNET 7, SADR cc): the two MAC notions differ. -/
def exampleRoutedSrc : BACNET_ADDRESS :=
  { mac_len := 2, mac := [170, 187, 0, 0, 0, 0, 0], net := 7, len := 1,
    adr := [204, 0, 0, 0, 0, 0, 0] }

/-- A received source with datalink MAC aa bb and no routed triple
(source-triple net 0), as in the spec's scenario 2. -/
def exampleLocalSrc : BACNET_ADDRESS :=
  { mac_len := 2, mac := [170, 187, 0, 0, 0, 0, 0], net := 0, len := 0,
    adr := [0, 0, 0, 0, 0, 0, 0] }

/-- A decoded NPCI value for a network-layer message of type `t`. -/
def netMsgNpdu (t : Nat) : BACNET_NPDU_DATA :=
  { protocol_version := 1, data_expecting_reply := false,
    network_layer_message := true, network_message_type := t,
    priority := 0, hop_count := 0 }

/-- A decoded NPCI value for an APDU-carrying frame with hop count
`hop`. -/
def apduNpdu (hop : Nat) : BACNET_NPDU_DATA :=
  { protocol_version := 1, data_expecting_reply := false,
    network_layer_message := false, network_message_type := 0,
    priority := 0, hop_count := hop }

/-- The destination decoded from a global-broadcast DNET 0xFFFF. -/
def bcastDest : BACNET_ADDRESS :=
  { mac_len := 0, mac := List.replicate MAX_MAC_LEN 0,
    net := BACNET_BROADCAST_NETWORK, len := 0,
    adr := List.replicate MAX_MAC_LEN 0 }

/-- A destination with DNET 1 (directly connected port 1), DADR cc. -/
def destNet1 : BACNET_ADDRESS :=
  { mac_len := 0, mac := List.replicate MAX_MAC_LEN 0, net := 1, len := 1,
    adr := [204, 0, 0, 0, 0, 0, 0] }

/-- The port-1 node of `exampleTable`, written out. -/
def examplePort1 : RouterPort :=
  { mac := List.replicate MAX_MAC_LEN 0, mac_len := 0, net := 1,
    enabled := true, dnets := [] }

/-- Observation helper for theorems: the stored next-hop MAC
(`mac_len` and the significant octets) recorded for a remote network. -/
def next_hop_of (tbl : List RouterPort) (net : Nat) : Option (Nat × List Nat) :=
  match dnet_find tbl net with
  | some (_, some d) => some (d.mac_len, d.mac.take d.mac_len)
  | _ => none

/-- Observation helper for theorems: the network number of the port
through which a network is reachable. -/
def owner_port_of (tbl : List RouterPort) (net : Nat) : Option Nat :=
  match dnet_find tbl net with
  | some (p, _) => some p.net
  | none => none

/-- The single emission produced by the direct-delivery forward used in
the C9 witness: DNET 1 frame with hop count 10 arriving on port 2. -/
def exampleC9Emission : Emission :=
  ((routed_apdu_handler exampleTable 2 (apduNpdu 10) zeroAddress destNet1
    [16]).2).getD 0
    { snet := 0, dest := zeroAddress, src := none, npdu := apduNpdu 0,
      body := [] }

/-! ## Routing-table lemmas -/

theorem dnets_find_eq_none {dnets : List DNET} {net : Nat} :
    dnets_find dnets net = none ↔ net ∉ dnets.map DNET.net := by
  induction dnets with
  | nil => simp [dnets_find]
  | cons d rest ih =>
    by_cases h : d.net = net
    · simp [dnets_find, h]
    · rw [dnets_find, if_neg h, ih]
      simp only [List.map_cons, List.mem_cons]
      constructor
      · rintro hn (he | hm)
        · exact h he.symm
        · exact hn hm
      · intro hn hm
        exact hn (Or.inr hm)

theorem dnet_find_cons_eq_none {p : RouterPort} {rest : List RouterPort} {net : Nat} :
    dnet_find (p :: rest) net = none ↔
      p.net ≠ net ∧ dnets_find p.dnets net = none ∧ dnet_find rest net = none := by
  by_cases h : p.net = net
  · simp [dnet_find, h]
  · cases hd : dnets_find p.dnets net with
    | some d => simp [dnet_find, h, hd]
    | none => simp [dnet_find, h, hd]

theorem dnet_find_eq_none {tbl : List RouterPort} {net : Nat} :
    dnet_find tbl net = none ↔ net ∉ allNets tbl := by
  induction tbl with
  | nil => simp [dnet_find, allNets]
  | cons p rest ih =>
    rw [dnet_find_cons_eq_none, dnets_find_eq_none, ih]
    simp only [allNets, portNets, List.mem_append, List.mem_cons]
    constructor
    · rintro ⟨h1, h2, h3⟩ (⟨rfl | hm⟩ | hr)
      · exact h1 rfl
      · exact h2 hm
      · exact h3 hr
    · intro h
      exact ⟨fun he => h (Or.inl (Or.inl he.symm)),
             fun hm => h (Or.inl (Or.inr hm)), fun hr => h (Or.inr hr)⟩

theorem allNets_append (t1 t2 : List RouterPort) :
    allNets (t1 ++ t2) = allNets t1 ++ allNets t2 := by
  induction t1 with
  | nil => simp [allNets]
  | cons p rest ih => simp [allNets, ih]

/-- When `net` is absent, `port_add` appends exactly one occurrence of
`net` to the stored networks. -/
theorem allNets_port_add {tbl : List RouterPort} {net : Nat}
    (h : dnet_find tbl net = none) (addr : Option BACNET_ADDRESS) :
    allNets (port_add tbl net addr) = allNets tbl ++ [net] := by
  unfold port_add
  rw [h, allNets_append]
  cases addr <;> simp [allNets, portNets]

theorem port_add_of_found {tbl : List RouterPort} {net : Nat}
    (h : (dnet_find tbl net).isSome) (addr : Option BACNET_ADDRESS) :
    port_add tbl net addr = tbl := by
  obtain ⟨x, hx⟩ := Option.isSome_iff_exists.mp h
  simp [port_add, hx]

theorem dnet_add_of_found {tbl : List RouterPort} {snet net : Nat}
    (h : (dnet_find tbl net).isSome) (addr : Option BACNET_ADDRESS) :
    dnet_add tbl snet net addr = tbl := by
  obtain ⟨x, hx⟩ := Option.isSome_iff_exists.mp h
  simp [dnet_add, hx]

/-- When `dnet_find` locates no port for `snet`, `dnet_add_here` walks
off the end of the list and changes nothing. -/
theorem dnet_add_here_of_no_port {tbl : List RouterPort} {snet : Nat}
    (h : dnet_find tbl snet = none) (net : Nat) (addr : Option BACNET_ADDRESS) :
    dnet_add_here tbl snet net addr = tbl := by
  induction tbl with
  | nil => rfl
  | cons p rest ih =>
    rw [dnet_find_cons_eq_none] at h
    obtain ⟨h1, h2, h3⟩ := h
    have hcond : ¬(p.net = snet ∨ (dnets_find p.dnets snet).isSome) := by
      simp [h1, h2]
    simp [dnet_add_here, hcond, ih h3]

/-- When a port for `snet` exists and `net` is absent from the whole
table, `dnet_add_here` inserts exactly one occurrence of `net`. -/
theorem allNets_dnet_add_here {tbl : List RouterPort} {snet net : Nat}
    (hs : (dnet_find tbl snet).isSome) (hn : net ∉ allNets tbl)
    (addr : Option BACNET_ADDRESS) :
    List.Perm (allNets (dnet_add_here tbl snet net addr)) (net :: allNets tbl) := by
  induction tbl with
  | nil => simp [dnet_find] at hs
  | cons p rest ih =>
    simp only [allNets, portNets, List.mem_append, List.mem_cons] at hn
    push_neg at hn
    obtain ⟨⟨hnp, hnd⟩, hnr⟩ := hn
    by_cases hcond : p.net = snet ∨ (dnets_find p.dnets snet).isSome
    · have hfind : dnets_find p.dnets net = none := dnets_find_eq_none.mpr hnd
      have hres : dnet_add_here (p :: rest) snet net addr =
          { p with dnets := p.dnets ++ [mkDNET net addr] } :: rest := by
        simp [dnet_add_here, hcond, dnets_append, hfind]
      rw [hres]
      have hall : allNets ({ p with dnets := p.dnets ++ [mkDNET net addr] } :: rest) =
          (p.net :: p.dnets.map DNET.net) ++ net :: allNets rest := by
        simp [allNets, portNets, mkDNET]
      have hall2 : net :: allNets (p :: rest) =
          net :: ((p.net :: p.dnets.map DNET.net) ++ allNets rest) := by
        simp [allNets, portNets]
      rw [hall, hall2]
      exact List.perm_middle
    · have hc1 : p.net ≠ snet := fun he => hcond (Or.inl he)
      have hc2 : dnets_find p.dnets snet = none := by
        cases hdd : dnets_find p.dnets snet with
        | none => rfl
        | some d => exact absurd (Or.inr (by simp [hdd])) hcond
      have hs' : (dnet_find rest snet).isSome := by
        simpa [dnet_find, hc1, hc2] using hs
      have hperm := ih hs' hnr
      have hres : dnet_add_here (p :: rest) snet net addr =
          p :: dnet_add_here rest snet net addr := by
        simp [dnet_add_here, hcond]
      rw [hres]
      show List.Perm (portNets p ++ allNets (dnet_add_here rest snet net addr))
        (net :: (portNets p ++ allNets rest))
      exact (List.Perm.append_left (portNets p) hperm).trans List.perm_middle

/-- Nodup of the stored networks is preserved by every table operation. -/
theorem nodup_applyOp {tbl : List RouterPort} (h : (allNets tbl).Nodup)
    (op : TableOp) : (allNets (applyOp tbl op)).Nodup := by
  cases op with
  | addPort snet addr =>
    show (allNets (port_add tbl snet addr)).Nodup
    cases hf : dnet_find tbl snet with
    | some x => simp [port_add, hf, h]
    | none =>
      rw [allNets_port_add hf]
      have hmem : snet ∉ allNets tbl := dnet_find_eq_none.mp hf
      have hp : List.Perm (allNets tbl ++ [snet]) (snet :: allNets tbl) := by
        have h2 : List.Perm (allNets tbl ++ snet :: ([] : List Nat))
            (snet :: (allNets tbl ++ [])) := List.perm_middle
        rwa [List.append_nil] at h2
      rw [hp.nodup_iff, List.nodup_cons]
      exact ⟨hmem, h⟩
  | addRemote snet net addr =>
    show (allNets (dnet_add tbl snet net addr)).Nodup
    cases hf : dnet_find tbl net with
    | some x => simp [dnet_add, hf, h]
    | none =>
      have hmem : net ∉ allNets tbl := dnet_find_eq_none.mp hf
      cases hs : dnet_find tbl snet with
      | none =>
        simp [dnet_add, hf, dnet_add_here_of_no_port hs, h]
      | some x =>
        have hsome : (dnet_find tbl snet).isSome := by simp [hs]
        have hperm := allNets_dnet_add_here hsome hmem addr
        simp only [dnet_add, hf]
        rw [hperm.nodup_iff, List.nodup_cons]
        exact ⟨hmem, h⟩

theorem nodup_runOps (ops : List TableOp) : (allNets (runOps ops)).Nodup := by
  suffices h : ∀ tbl, (allNets tbl).Nodup → (allNets (ops.foldl applyOp tbl)).Nodup by
    exact h [] (by simp [allNets])
  induction ops with
  | nil => intro tbl h; exact h
  | cons op rest ih =>
    intro tbl h
    exact ih (applyOp tbl op) (nodup_applyOp h op)

/-! ## Claim C5 -/

/-- C5: after any sequence of `port_add`/`dnet_add` operations starting
from the empty table, every network number appears at most once across
the union of all port networks and all remote networks, and an add
whose network number is already present anywhere leaves the table
unchanged. -/
theorem claim_C5_uniqueness :
    (∀ ops : List TableOp, (allNets (runOps ops)).Nodup) ∧
    (∀ tbl snet net addr, net ∈ allNets tbl →
      port_add tbl net addr = tbl ∧ dnet_add tbl snet net addr = tbl) := by
  refine ⟨nodup_runOps, fun tbl snet net addr hmem => ?_⟩
  have hf : (dnet_find tbl net).isSome := by
    cases h : dnet_find tbl net with
    | none => exact absurd hmem (dnet_find_eq_none.mp h)
    | some x => rfl
  exact ⟨port_add_of_found hf addr, dnet_add_of_found hf addr⟩

/-- Witness for C5 at a concrete table: adding the already-present
network 1 to `{port 1}` is a no-op for both operations. -/
theorem claim_C5_uniqueness_witness :
    port_add (port_add [] 1 none) 1 none = port_add [] 1 none ∧
    dnet_add (port_add [] 1 none) 2 1 none = port_add [] 1 none :=
  claim_C5_uniqueness.2 (port_add [] 1 none) 2 1 none (by decide)

/-! ## Claim C2 -/

/-- C2 counterexample: neither `port_add` nor `dnet_add` validates the
network number, so 0xFFFF is stored as a remote network by
`dnet_add(1, 0xFFFF)` after `port_add(1)`, and 0 is stored as a port
network by `port_add(0)`. -/
theorem claim_C2_counterexample :
    65535 ∈ allNets (dnet_add (port_add [] 1 none) 1 65535 none) ∧
    0 ∈ allNets (port_add [] 0 none) := by decide

theorem mem_allNets_port_add {tbl : List RouterPort} {net : Nat}
    (h : dnet_find tbl net = none) (addr : Option BACNET_ADDRESS) :
    net ∈ allNets (port_add tbl net addr) := by
  rw [allNets_port_add h]; simp

theorem mem_allNets_dnet_add {tbl : List RouterPort} {snet net : Nat}
    (h : dnet_find tbl net = none) (hs : (dnet_find tbl snet).isSome)
    (addr : Option BACNET_ADDRESS) :
    net ∈ allNets (dnet_add tbl snet net addr) := by
  have hmem : net ∉ allNets tbl := dnet_find_eq_none.mp h
  have hperm := allNets_dnet_add_here hs hmem addr
  simp only [dnet_add, h]
  exact hperm.mem_iff.mpr (List.mem_cons_self _ _)

/-- C2 amended: `port_add` and `dnet_add` do not validate the network
number; 0 and 0xFFFF are stored like any other value, subject only to
the global-uniqueness check and (for `dnet_add`) the port lookup. -/
theorem claim_C2_amended :
    (∀ tbl addr, dnet_find tbl 0 = none → 0 ∈ allNets (port_add tbl 0 addr)) ∧
    (∀ tbl addr, dnet_find tbl 65535 = none →
        65535 ∈ allNets (port_add tbl 65535 addr)) ∧
    (∀ tbl snet addr, dnet_find tbl 0 = none → (dnet_find tbl snet).isSome →
        0 ∈ allNets (dnet_add tbl snet 0 addr)) ∧
    (∀ tbl snet addr, dnet_find tbl 65535 = none → (dnet_find tbl snet).isSome →
        65535 ∈ allNets (dnet_add tbl snet 65535 addr)) :=
  ⟨fun _ addr h => mem_allNets_port_add h addr,
   fun _ addr h => mem_allNets_port_add h addr,
   fun _ _ addr h hs => mem_allNets_dnet_add h hs addr,
   fun _ _ addr h hs => mem_allNets_dnet_add h hs addr⟩

/-- Witness for the amended C2 on `{port 1}`: 0xFFFF gets stored. -/
theorem claim_C2_amended_witness :
    65535 ∈ allNets (dnet_add (port_add [] 1 none) 1 65535 none) :=
  claim_C2_amended.2.2.2 (port_add [] 1 none) 1 none (by decide) (by decide)

/-! ## Claim C8 -/

/-- C8 counterexample: with table `{port 1 -> remote 5}`, the network 5
is not a directly connected port, yet `dnet_add(5, 7)` is not a no-op:
`dnet_find` matches the remote network 5 and the new remote 7 is added
under port 1. -/
theorem claim_C8_counterexample :
    port_find (dnet_add (port_add [] 1 none) 1 5 none) 5 = none ∧
    dnet_add (dnet_add (port_add [] 1 none) 1 5 none) 5 7 none ≠
      dnet_add (port_add [] 1 none) 1 5 none ∧
    7 ∈ allNets (dnet_add (dnet_add (port_add [] 1 none) 1 5 none) 5 7 none) := by
  decide

/-- C8 amended: `dnet_add` is a no-op exactly when `via_port_net` is
found nowhere in the table (neither as a port network nor as a remote
network); when it matches a stored remote network, `remote_net` is
added under the port owning that remote. -/
theorem claim_C8_amended :
    (∀ tbl snet net addr, dnet_find tbl snet = none →
        dnet_add tbl snet net addr = tbl) ∧
    (∀ tbl snet net addr, (dnet_find tbl snet).isSome →
        dnet_find tbl net = none →
        net ∈ allNets (dnet_add tbl snet net addr)) := by
  constructor
  · intro tbl snet net addr h
    cases hf : dnet_find tbl net with
    | some x => simp [dnet_add, hf]
    | none => simp [dnet_add, hf, dnet_add_here_of_no_port h]
  · intro tbl snet net addr hs h
    exact mem_allNets_dnet_add h hs addr

/-- Witness for the amended C8: `dnet_add(9, 5)` on `{port 1}` leaves
the table unchanged, and `dnet_add(1, 5)` stores 5. -/
theorem claim_C8_amended_witness :
    dnet_add (port_add [] 1 none) 9 5 none = port_add [] 1 none ∧
    5 ∈ allNets (dnet_add (port_add [] 1 none) 1 5 none) :=
  ⟨claim_C8_amended.1 (port_add [] 1 none) 9 5 none (by decide),
   claim_C8_amended.2 (port_add [] 1 none) 1 5 none (by decide) (by decide)⟩

/-! ## Emission-loop lemmas -/

theorem mem_send_to_other_ports {tbl : List RouterPort} {snet : Nat}
    {mk : Nat → Emission} {e : Emission}
    (h : e ∈ send_to_other_ports tbl snet mk) : ∃ m, e = mk m := by
  induction tbl with
  | nil => simp [send_to_other_ports] at h
  | cons p rest ih =>
    by_cases hp : p.net ≠ snet
    · simp only [send_to_other_ports, if_pos hp, List.mem_cons] at h
      rcases h with he | hrest
      · exact ⟨p.net, he⟩
      · exact ih hrest
    · simp only [send_to_other_ports, if_neg hp] at h
      exact ih h

theorem send_to_other_ports_map_snet {tbl : List RouterPort} {snet : Nat}
    {mk : Nat → Emission} (h : ∀ m, (mk m).snet = m) :
    (send_to_other_ports tbl snet mk).map Emission.snet =
      (tbl.filter (fun q => q.net != snet)).map RouterPort.net := by
  induction tbl with
  | nil => rfl
  | cons p rest ih =>
    by_cases hp : p.net = snet
    · simp [send_to_other_ports, hp, ih]
    · simp [send_to_other_ports, hp, ih, h]

/-! ## Claim C6 -/

/-- C6 counterexample: with the two-port table, a
Who-Is-Router-To-Network whose 2-octet payload carries dnet = 0 (not in
the table) is rebroadcast on port 2 with an EMPTY payload - the emitted
message does not carry the 2-octet dnet, so it decodes as a
no-dnet Who-Is, not as Who-Is-Router-To-Network(0). -/
theorem claim_C6_counterexample :
    (who_is_router_to_network_handler exampleTable 1 [0, 0]).map
      Emission.body = [[]] ∧
    encode_unsigned16 0 = [0, 0] := by decide

/-- C6 amended: as the claim states, except that the emitted messages
carry the 2-octet dnet only when dnet is nonzero; for dnet = 0 the
I-Am reply carries the full reachable-network enumeration and the
rebroadcast carries an empty payload. -/
theorem claim_C6_amended (tbl : List RouterPort) (snet b0 b1 : Nat)
    (rest : List Nat) (n : Nat) (hn : decode_unsigned16 b0 b1 = n) :
    (∀ port rem, dnet_find tbl n = some (port, rem) → port.net ≠ snet →
      who_is_router_to_network_handler tbl snet (b0 :: b1 :: rest) =
        [send_i_am_router_to_network tbl snet n] ∧
      ∀ e ∈ who_is_router_to_network_handler tbl snet (b0 :: b1 :: rest),
        e.snet = snet ∧ e.dest = datalink_get_broadcast_address ∧
        e.npdu.network_message_type = NETWORK_MESSAGE_I_AM_ROUTER_TO_NETWORK ∧
        (n ≠ 0 → e.body = encode_unsigned16 n) ∧
        (n = 0 → e.body = i_am_router_nets_payload tbl snet)) ∧
    (∀ port rem, dnet_find tbl n = some (port, rem) → port.net = snet →
      who_is_router_to_network_handler tbl snet (b0 :: b1 :: rest) = []) ∧
    (dnet_find tbl n = none →
      (who_is_router_to_network_handler tbl snet (b0 :: b1 :: rest)).map
        Emission.snet =
        (tbl.filter (fun q => q.net != snet)).map RouterPort.net ∧
      ∀ e ∈ who_is_router_to_network_handler tbl snet (b0 :: b1 :: rest),
        e.dest = datalink_get_broadcast_address ∧
        e.npdu.network_message_type =
          NETWORK_MESSAGE_WHO_IS_ROUTER_TO_NETWORK ∧
        e.body = (if n ≠ 0 then encode_unsigned16 n else [])) := by
  subst hn
  refine ⟨?_, ?_, ?_⟩
  · intro port rem hfind hne
    have hval : who_is_router_to_network_handler tbl snet (b0 :: b1 :: rest) =
        [send_i_am_router_to_network tbl snet (decode_unsigned16 b0 b1)] := by
      simp only [who_is_router_to_network_handler, hfind, if_pos hne]
    refine ⟨hval, ?_⟩
    intro e he
    rw [hval, List.mem_singleton] at he
    subst he
    refine ⟨rfl, rfl, rfl, ?_, ?_⟩
    · intro h0
      simp [send_i_am_router_to_network, h0]
    · intro h0
      simp [send_i_am_router_to_network, h0]
  · intro port rem hfind heq
    have hne : ¬ port.net ≠ snet := by simp [heq]
    simp only [who_is_router_to_network_handler, hfind, if_neg hne]
  · intro hfind
    have hval : who_is_router_to_network_handler tbl snet (b0 :: b1 :: rest) =
        send_to_other_ports tbl snet (fun pnet =>
          send_who_is_router_to_network pnet (decode_unsigned16 b0 b1)) := by
      simp only [who_is_router_to_network_handler, hfind]
    constructor
    · rw [hval]
      exact send_to_other_ports_map_snet (fun m => rfl)
    · intro e he
      rw [hval] at he
      obtain ⟨m, rfl⟩ := mem_send_to_other_ports he
      exact ⟨rfl, rfl, rfl⟩

/-- Witness for the amended C6: Who-Is-Router-To-Network(5), 5 unknown,
received on port 1 of the two-port table is re-issued on exactly the
other ports. -/
theorem claim_C6_amended_witness :
    (who_is_router_to_network_handler exampleTable 1 [0, 5]).map
      Emission.snet =
      (exampleTable.filter (fun q => q.net != 1)).map RouterPort.net :=
  ((claim_C6_amended exampleTable 1 0 5 [] 5 (by decide)).2.2 (by decide)).1

/-! ## Claim C7 -/

theorem dnets_nets_payload_eq (dnets : List DNET) :
    dnets_nets_payload dnets =
      ((dnets.map DNET.net).map encode_unsigned16).flatten := by
  induction dnets with
  | nil => rfl
  | cons d rest ih => simp [dnets_nets_payload, ih]

theorem i_am_payload_eq (tbl : List RouterPort) (snet : Nat) :
    i_am_router_nets_payload tbl snet =
      (((tbl.filter (fun q => q.net != snet)).map portNets).flatten.map
        encode_unsigned16).flatten := by
  induction tbl with
  | nil => rfl
  | cons q rest ih =>
    by_cases hq : q.net = snet
    · simp [i_am_router_nets_payload, hq, ih]
    · simp [i_am_router_nets_payload, hq, ih, dnets_nets_payload_eq, portNets,
        List.append_assoc]

theorem mem_allNets_of_mem {tbl : List RouterPort} {p : RouterPort} {nn : Nat}
    (hp : p ∈ tbl) (hn : nn ∈ portNets p) : nn ∈ allNets tbl := by
  induction tbl with
  | nil => simp at hp
  | cons q rest ih =>
    rcases List.mem_cons.mp hp with rfl | hp'
    · exact List.mem_append.mpr (Or.inl hn)
    · exact List.mem_append.mpr (Or.inr (ih hp'))

theorem mem_flatten_filter_sub {tbl : List RouterPort} {snet nn : Nat}
    (h : nn ∈ ((tbl.filter (fun q => q.net != snet)).map portNets).flatten) :
    nn ∈ allNets tbl := by
  rcases List.mem_flatten.mp h with ⟨l, hl, hnl⟩
  rcases List.mem_map.mp hl with ⟨q, hq, rfl⟩
  exact mem_allNets_of_mem (List.mem_filter.mp hq).1 hnl

theorem not_mem_advertised {tbl : List RouterPort} {snet : Nat}
    {p : RouterPort} (hnd : (allNets tbl).Nodup) (hp : p ∈ tbl)
    (hsnet : p.net = snet) :
    ∀ nn ∈ portNets p,
      ¬ nn ∈ ((tbl.filter (fun q => q.net != snet)).map portNets).flatten := by
  induction tbl with
  | nil => simp at hp
  | cons q rest ih =>
    have hnd' : (portNets q ++ allNets rest).Nodup := hnd
    rw [List.nodup_append] at hnd'
    obtain ⟨hnq, hnr, hdisj⟩ := hnd'
    intro nn hnn hmem
    rcases List.mem_cons.mp hp with rfl | hp'
    · have hfilter : (p :: rest).filter (fun r => r.net != snet) =
          rest.filter (fun r => r.net != snet) := by
        simp [List.filter_cons, hsnet]
      rw [hfilter] at hmem
      exact hdisj hnn (mem_flatten_filter_sub hmem)
    · by_cases hqs : q.net = snet
      · have hfilter : (q :: rest).filter (fun r => r.net != snet) =
            rest.filter (fun r => r.net != snet) := by
          simp [List.filter_cons, hqs]
        rw [hfilter] at hmem
        exact ih hnr hp' nn hnn hmem
      · have hfilter : (q :: rest).filter (fun r => r.net != snet) =
            q :: rest.filter (fun r => r.net != snet) := by
          simp [List.filter_cons, hqs]
        rw [hfilter, List.map_cons, List.flatten_cons, List.mem_append] at hmem
        rcases hmem with hq1 | hrest
        · exact hdisj hq1 (mem_allNets_of_mem hp' hnn)
        · exact ih hnr hp' nn hnn hrest

/-- C7: the payload of an emitted I-Am-Router-To-Network(0) on source
port `p` enumerates, in insertion order, the own network of every port
other than `p` followed by that port's remote networks, each as a
2-octet big-endian value, and - under the duplicate-freedom that every
reachable table enjoys (C5) - contains no network reachable through
`p`, neither `p`'s own network nor any remote network owned by `p`. -/
theorem claim_C7_loop_free_advertisement (tbl : List RouterPort)
    (snet : Nat) (p : RouterPort) (hnd : (allNets tbl).Nodup) (hp : p ∈ tbl)
    (hsnet : p.net = snet) :
    (send_i_am_router_to_network tbl snet 0).body =
      (((tbl.filter (fun q => q.net != snet)).map portNets).flatten.map
        encode_unsigned16).flatten ∧
    ∀ nn ∈ portNets p,
      ¬ nn ∈ ((tbl.filter (fun q => q.net != snet)).map portNets).flatten := by
  constructor
  · show i_am_router_nets_payload tbl snet = _
    exact i_am_payload_eq tbl snet
  · exact not_mem_advertised hnd hp hsnet

/-- Witness for C7 on the table `{port 1, port 2 -> remote 7}` with
source port 1. -/
theorem claim_C7_loop_free_advertisement_witness :
    (send_i_am_router_to_network (dnet_add exampleTable 2 7 none) 1 0).body =
      ((((dnet_add exampleTable 2 7 none).filter
        (fun q => q.net != 1)).map portNets).flatten.map encode_unsigned16).flatten ∧
    ∀ nn ∈ portNets examplePort1,
      ¬ nn ∈ (((dnet_add exampleTable 2 7 none).filter
        (fun q => q.net != 1)).map portNets).flatten :=
  claim_C7_loop_free_advertisement (dnet_add exampleTable 2 7 none) 1
    examplePort1 (by decide) (by decide) rfl

/-! ## Claim C4 -/

/-- C4 counterexample: an I-Am-Router-To-Network(5) received on port 1
from a source whose datalink MAC (aa bb) differs from its NPCI
source-triple SADR (cc): the stored next-hop MAC is the datalink MAC
aa bb, not the SADR cc, refuting "the next-hop address recorded ... as
carried in the NPCI source triple (SADR)". -/
theorem claim_C4_counterexample :
    next_hop_of (network_control_handler exampleTable 1 exampleRoutedSrc
      (netMsgNpdu NETWORK_MESSAGE_I_AM_ROUTER_TO_NETWORK) [0, 5]).1 5 =
      some (2, [170, 187]) ∧
    exampleRoutedSrc.adr.take exampleRoutedSrc.len = [204] ∧
    some (2, [170, 187]) ≠
      some (exampleRoutedSrc.len,
        exampleRoutedSrc.adr.take exampleRoutedSrc.len) := by decide

theorem dnet_add_here_entries {tbl : List RouterPort} {snet net : Nat}
    {addr : Option BACNET_ADDRESS} {p1 : RouterPort} {d : DNET}
    (hp : p1 ∈ dnet_add_here tbl snet net addr) (hd : d ∈ p1.dnets) :
    (∃ p0 ∈ tbl, d ∈ p0.dnets) ∨ d = mkDNET net addr := by
  induction tbl with
  | nil => simp [dnet_add_here] at hp
  | cons p rest ih =>
    by_cases hc : p.net = snet ∨ (dnets_find p.dnets snet).isSome
    · simp only [dnet_add_here, if_pos hc, List.mem_cons] at hp
      rcases hp with rfl | hp
      · have hd' : d ∈ dnets_append p.dnets net addr := hd
        unfold dnets_append at hd'
        cases hf : dnets_find p.dnets net with
        | some x =>
          rw [hf] at hd'
          exact Or.inl ⟨p, List.mem_cons_self _ _, hd'⟩
        | none =>
          rw [hf] at hd'
          rcases List.mem_append.mp hd' with hold | hnew
          · exact Or.inl ⟨p, List.mem_cons_self _ _, hold⟩
          · rw [List.mem_singleton] at hnew
            exact Or.inr hnew
      · exact Or.inl ⟨p1, List.mem_cons_of_mem _ hp, hd⟩
    · simp only [dnet_add_here, if_neg hc, List.mem_cons] at hp
      rcases hp with rfl | hp
      · exact Or.inl ⟨p1, List.mem_cons_self _ _, hd⟩
      · rcases ih hp with ⟨p0, hp0, hd0⟩ | hnew
        · exact Or.inl ⟨p0, List.mem_cons_of_mem _ hp0, hd0⟩
        · exact Or.inr hnew

/-- C4 amended: each parsed 2-octet network is added as a remote
network under the source port, but the next-hop recorded for it is the
sender's datalink source MAC (`src->mac`), not the NPCI source-triple
SADR; in the claim's own scenario (datalink MAC aa bb, source-triple
net 0) networks 5 and 6 do land under port 1 with next-hop aa bb. In
general every remote entry created by `dnet_add` carries the
`mac`/`mac_len` of its address argument. -/
theorem claim_C4_amended :
    (next_hop_of (network_control_handler exampleTable 1 exampleLocalSrc
        (netMsgNpdu NETWORK_MESSAGE_I_AM_ROUTER_TO_NETWORK) [0, 5, 0, 6]).1 5 =
        some (2, [170, 187]) ∧
      next_hop_of (network_control_handler exampleTable 1 exampleLocalSrc
        (netMsgNpdu NETWORK_MESSAGE_I_AM_ROUTER_TO_NETWORK) [0, 5, 0, 6]).1 6 =
        some (2, [170, 187]) ∧
      owner_port_of (network_control_handler exampleTable 1 exampleLocalSrc
        (netMsgNpdu NETWORK_MESSAGE_I_AM_ROUTER_TO_NETWORK) [0, 5, 0, 6]).1 5 =
        some 1 ∧
      owner_port_of (network_control_handler exampleTable 1 exampleLocalSrc
        (netMsgNpdu NETWORK_MESSAGE_I_AM_ROUTER_TO_NETWORK) [0, 5, 0, 6]).1 6 =
        some 1) ∧
    (∀ tbl snet net addr p1 d, p1 ∈ dnet_add tbl snet net (some addr) →
      d ∈ p1.dnets →
      (∃ p0 ∈ tbl, d ∈ p0.dnets) ∨
        (d.mac = macCopy addr.mac ∧ d.mac_len = addr.mac_len ∧ d.net = net)) := by
  constructor
  · exact ⟨by decide, by decide, by decide, by decide⟩
  · intro tbl snet net addr p1 d hp hd
    cases hf : dnet_find tbl net with
    | some x =>
      simp only [dnet_add, hf] at hp
      exact Or.inl ⟨p1, hp, hd⟩
    | none =>
      simp only [dnet_add, hf] at hp
      rcases dnet_add_here_entries hp hd with h | hnew
      · exact Or.inl h
      · subst hnew
        exact Or.inr ⟨rfl, rfl, rfl⟩

/-- Witness for the amended C4: the entry `dnet_add` creates on
`{port 1}` for network 5 records the datalink MAC of the address
argument. -/
theorem claim_C4_amended_witness :
    (∃ p0 ∈ port_add [] 1 none, mkDNET 5 (some exampleRoutedSrc) ∈ p0.dnets) ∨
    ((mkDNET 5 (some exampleRoutedSrc)).mac = macCopy exampleRoutedSrc.mac ∧
      (mkDNET 5 (some exampleRoutedSrc)).mac_len = exampleRoutedSrc.mac_len ∧
      (mkDNET 5 (some exampleRoutedSrc)).net = 5) :=
  claim_C4_amended.2 (port_add [] 1 none) 1 5 exampleRoutedSrc
    { net := 1, mac := List.replicate MAX_MAC_LEN 0, mac_len := 0,
      enabled := true, dnets := [mkDNET 5 (some exampleRoutedSrc)] }
    (mkDNET 5 (some exampleRoutedSrc)) (by decide) (by decide)

/-! ## Claim C3 -/

/-- C3: refuted by the code - the Initialize-Routing-Table parser
re-initializes its cursor (`int i = 1`) inside the loop, so the
two-entry message (DNET 5, id 1, info-length 0), (DNET 6, id 2,
info-length 0), i.e. bytes 02 00 05 01 00 00 06 02 00, adds only the
first entry's DNET 5 (twice); DNET 6 is never added; the
Initialize-Routing-Table-Ack is still sent. -/
theorem claim_C3_init_rt_cursor_bug :
    (dnet_find (network_control_handler exampleTable 1 zeroAddress
      (netMsgNpdu NETWORK_MESSAGE_INIT_RT_TABLE)
      [2, 0, 5, 1, 0, 0, 6, 2, 0]).1 5).isSome = true ∧
    dnet_find (network_control_handler exampleTable 1 zeroAddress
      (netMsgNpdu NETWORK_MESSAGE_INIT_RT_TABLE)
      [2, 0, 5, 1, 0, 0, 6, 2, 0]).1 6 = none ∧
    (network_control_handler exampleTable 1 zeroAddress
      (netMsgNpdu NETWORK_MESSAGE_INIT_RT_TABLE)
      [2, 0, 5, 1, 0, 0, 6, 2, 0]).2.map
      (fun e => e.npdu.network_message_type) =
      [NETWORK_MESSAGE_INIT_RT_TABLE_ACK] := by decide

/-! ## Claim C1 -/

/-- C1: refuted by the code - the global-broadcast path of
`routed_apdu_handler` never checks the hop count: a frame addressed to
DNET 0xFFFF with hop count 0 arriving on port 1 of the two-port table
is still emitted on port 2, with the 8-bit hop count wrapped to 255,
instead of being discarded. -/
theorem claim_C1_broadcast_hop_zero_still_emits :
    ((routed_apdu_handler exampleTable 1 (apduNpdu 0) zeroAddress bcastDest
      [16]).2).map (fun e => (e.snet, e.npdu.hop_count)) = [(2, 255)] ∧
    (routed_apdu_handler exampleTable 1 (apduNpdu 0) zeroAddress bcastDest
      [16]).2 ≠ [] := by decide

/-! ## Claim C9 -/

/-- C9: on every forwarding path of `routed_apdu_handler` (global
broadcast, direct delivery, intermediate forward, unknown-DNET
speculative broadcast) every emitted forwarded NPCI carries a hop count
equal to the received hop count minus one in 8-bit arithmetic; the
discovery Who-Is emission of the unknown-DNET case is a fresh
network-layer message, not a forwarded frame. -/
theorem claim_C9_hop_count_decrement (tbl : List RouterPort) (snet : Nat)
    (npdu : BACNET_NPDU_DATA) (src dest : BACNET_ADDRESS) (apdu : List Nat)
    (_hmsg : npdu.network_layer_message = false) (e : Emission)
    (he : e ∈ (routed_apdu_handler tbl snet npdu src dest apdu).2)
    (hf : e.npdu.network_layer_message = false) :
    e.npdu.hop_count = (npdu.hop_count + 255) % 256 := by
  by_cases h1 : dest.net = BACNET_BROADCAST_NETWORK
  · simp only [routed_apdu_handler, if_pos h1] at he
    obtain ⟨m, rfl⟩ := mem_send_to_other_ports he
    rfl
  · cases hfind : dnet_find tbl dest.net with
    | some pr =>
      obtain ⟨port, rem⟩ := pr
      by_cases h2 : port.net = dest.net
      · simp only [routed_apdu_handler, if_neg h1, hfind, if_pos h2,
          List.mem_singleton] at he
        subst he
        rfl
      · simp only [routed_apdu_handler, if_neg h1, hfind, if_neg h2,
          List.mem_singleton] at he
        subst he
        rfl
    | none =>
      by_cases h3 : dest.net = 0
      · have h3' : ¬ dest.net ≠ 0 := by simp [h3]
        simp only [routed_apdu_handler, if_neg h1, hfind, if_neg h3'] at he
        exact absurd he (List.not_mem_nil e)
      · have h3' : dest.net ≠ 0 := h3
        simp only [routed_apdu_handler, if_neg h1, hfind, if_pos h3'] at he
        rcases List.mem_append.mp he with hmem | hwho
        · obtain ⟨m, rfl⟩ := mem_send_to_other_ports hmem
          rfl
        · rw [List.mem_singleton] at hwho
          subst hwho
          simp [send_who_is_router_to_network, npdu_encode_npdu_network] at hf

/-- Witness for C9: the direct delivery of a DNET-1 frame with hop
count 10 arriving on port 2 of the two-port table emits hop count 9. -/
theorem claim_C9_hop_count_decrement_witness :
    exampleC9Emission ∈ (routed_apdu_handler exampleTable 2 (apduNpdu 10)
      zeroAddress destNet1 [16]).2 ∧
    exampleC9Emission.npdu.hop_count = ((apduNpdu 10).hop_count + 255) % 256 :=
  ⟨by decide,
   claim_C9_hop_count_decrement exampleTable 2 (apduNpdu 10) zeroAddress
     destNet1 [16] (by decide) exampleC9Emission (by decide) (by decide)⟩

/-! ## Claim C10 -/

theorem decode_version {pdu : List Nat} {srcIn : BACNET_ADDRESS}
    {r : BACNET_ADDRESS × BACNET_ADDRESS × BACNET_NPDU_DATA × Nat}
    (h : bacnet_npdu_decode pdu srcIn = some r) :
    pdu.get? 0 = some BACNET_PROTOCOL_VERSION := by
  unfold bacnet_npdu_decode at h
  cases h0 : pdu.get? 0 with
  | none => rw [h0] at h; simp at h
  | some ver =>
    cases h1 : pdu.get? 1 with
    | none => rw [h0, h1] at h; simp at h
    | some ctrl =>
      rw [h0, h1] at h
      by_cases hv : ver = BACNET_PROTOCOL_VERSION
      · exact congrArg some hv
      · simp only [if_neg hv] at h
        simp at h

/-- C10: a received frame whose NPCI decodes with the
network-layer-message flag set and a destination network that is
neither 0 nor 0xFFFF is silently discarded by
`my_routing_npdu_handler`: the control handler is not reached, the
routing table is unchanged, and no emission or APDU delivery occurs. -/
theorem claim_C10_net_msg_with_dnet_dropped (tbl : List RouterPort)
    (snet : Nat) (src : BACNET_ADDRESS) (pdu : List Nat)
    (dest src2 : BACNET_ADDRESS) (npdu_data : BACNET_NPDU_DATA) (off : Nat)
    (hdec : bacnet_npdu_decode pdu src = some (dest, src2, npdu_data, off))
    (hmsg : npdu_data.network_layer_message = true)
    (h0 : dest.net ≠ 0) (hb : dest.net ≠ BACNET_BROADCAST_NETWORK) :
    my_routing_npdu_handler tbl snet src pdu = (tbl, [], []) := by
  cases pdu with
  | nil => simp [bacnet_npdu_decode] at hdec
  | cons v rest =>
    have hv : v = BACNET_PROTOCOL_VERSION := by
      have h := decode_version hdec
      simpa using h
    subst hv
    have hor : ¬ (dest.net = 0 ∨ dest.net = BACNET_BROADCAST_NETWORK) := by
      rintro (h | h)
      · exact h0 h
      · exact hb h
    simp [my_routing_npdu_handler, hdec, hmsg, hor]

/-- Witness for C10: the literal frame 01 A0 00 05 00 0A 01 (version 1,
network message, DNET 5, hop 10, message type 1) is dropped whole. -/
theorem claim_C10_net_msg_with_dnet_dropped_witness :
    my_routing_npdu_handler exampleTable 1 zeroAddress
      [1, 160, 0, 5, 0, 10, 1] = (exampleTable, [], []) :=
  claim_C10_net_msg_with_dnet_dropped exampleTable 1 zeroAddress
    [1, 160, 0, 5, 0, 10, 1]
    { mac_len := 0, mac := List.replicate MAX_MAC_LEN 0, net := 5, len := 0,
      adr := [] }
    zeroAddress
    { protocol_version := 1, data_expecting_reply := false,
      network_layer_message := true, network_message_type := 1, priority := 0,
      hop_count := 10 }
    7 (by decide) rfl (by decide) (by decide)

end BacnetRouter
